import Mathlib

/-!
A shallow embedding of `dynamite-lib` (`src/lib.rs`), a wrapper over the
platform's dynamic-library facilities, together with proofs of the spec's
claims about it.

Modelling conventions:
* Machine pointers (`*mut u8` handles, symbol addresses) are modelled as `Nat`.
* Raw C byte strings are `List Nat` (each entry a byte value).
* The operating system's loader (`dlopen`/`dlsym`/`dlclose`/`dlerror`) is an
  external collaborator; it is modelled by an oracle structure `PosixWorld`
  recording, for each primitive call, the value the OS returns together with
  the state of the sticky `dlerror` buffer immediately after the call
  (`none` = `dlerror` returns a null pointer).
* Rust `panic!` is distinguished from returning `Err`: a computation that may
  panic returns a `PanicOr` value.
* Rust's `str::from_utf8` and `to_string_lossy` (standard-library
  collaborators) are modelled bit-faithfully below, including the `Display`
  text of `Utf8Error` that ends up inside error messages.
-/

/-- A byte of a C string, `0 ≤ b < 256` by convention. -/
abbrev Byte := Nat

/-- UTF-8 continuation byte test: `0x80 ≤ b ≤ 0xBF`. -/
def isCont (b : Byte) : Bool := 0x80 ≤ b && b ≤ 0xBF

/-- The `Display` text of Rust's `Utf8Error` when an invalid sequence of
`n` bytes starts at byte index `i`. -/
def invalidMsg (n i : Nat) : String :=
  "invalid utf-8 sequence of " ++ toString n ++ " bytes from index " ++ toString i

/-- The `Display` text of Rust's `Utf8Error` when the input ends in the middle
of a multi-byte sequence that started at byte index `i`. -/
def incompleteMsg (i : Nat) : String :=
  "incomplete utf-8 byte sequence from index " ++ toString i

/-- UTF-8 decoding loop following `core::str::run_utf8_validation`: the `Nat`
argument is the index of the current byte, used only for error messages.
Overlong encodings, surrogates and values above `0x10FFFF` are rejected
exactly as Rust rejects them. -/
def utf8DecodeLoop : List Byte → Nat → Except String (List Char)
  | [], _ => .ok []
  | b :: rest, i =>
    if b < 0x80 then
      (utf8DecodeLoop rest (i + 1)).map (fun cs => Char.ofNat b :: cs)
    else if b < 0xC2 then
      -- a stray continuation byte, or the overlong starters 0xC0/0xC1
      .error (invalidMsg 1 i)
    else if b < 0xE0 then
      match rest with
      | [] => .error (incompleteMsg i)
      | b1 :: rest1 =>
        if isCont b1 then
          (utf8DecodeLoop rest1 (i + 2)).map
            (fun cs => Char.ofNat ((b % 0x20) * 0x40 + (b1 % 0x40)) :: cs)
        else .error (invalidMsg 1 i)
    else if b < 0xF0 then
      match rest with
      | [] => .error (incompleteMsg i)
      | b1 :: rest1 =>
        if (b == 0xE0 && 0xA0 ≤ b1 && b1 ≤ 0xBF) ||
           (0xE1 ≤ b && b ≤ 0xEC && isCont b1) ||
           (b == 0xED && 0x80 ≤ b1 && b1 ≤ 0x9F) ||
           (0xEE ≤ b && isCont b1) then
          match rest1 with
          | [] => .error (incompleteMsg i)
          | b2 :: rest2 =>
            if isCont b2 then
              (utf8DecodeLoop rest2 (i + 3)).map (fun cs =>
                Char.ofNat ((b % 0x10) * 0x1000 + (b1 % 0x40) * 0x40 + (b2 % 0x40)) :: cs)
            else .error (invalidMsg 2 i)
        else .error (invalidMsg 1 i)
    else if b < 0xF5 then
      match rest with
      | [] => .error (incompleteMsg i)
      | b1 :: rest1 =>
        if (b == 0xF0 && 0x90 ≤ b1 && b1 ≤ 0xBF) ||
           (0xF1 ≤ b && b ≤ 0xF3 && isCont b1) ||
           (b == 0xF4 && 0x80 ≤ b1 && b1 ≤ 0x8F) then
          match rest1 with
          | [] => .error (incompleteMsg i)
          | b2 :: rest2 =>
            if isCont b2 then
              match rest2 with
              | [] => .error (incompleteMsg i)
              | b3 :: rest3 =>
                if isCont b3 then
                  (utf8DecodeLoop rest3 (i + 4)).map (fun cs =>
                    Char.ofNat ((b % 0x8) * 0x40000 + (b1 % 0x40) * 0x1000 +
                      (b2 % 0x40) * 0x40 + (b3 % 0x40)) :: cs)
                else .error (invalidMsg 3 i)
            else .error (invalidMsg 2 i)
        else .error (invalidMsg 1 i)
    else .error (invalidMsg 1 i)

/-- Model of Rust's `str::from_utf8(s)` mapped through `Display`: either the
decoded string or the `Utf8Error` description. -/
def from_utf8 (s : List Byte) : Except String String :=
  (utf8DecodeLoop s 0).map fun cs => String.mk cs

/-- The Unicode replacement character `U+FFFD`. -/
def repl : Char := Char.ofNat 0xFFFD

/-- Model of Rust's lossy UTF-8 decoding: each maximal invalid subsequence is
replaced by one `U+FFFD`, with the skip widths matching `Utf8Error.error_len`.
The fuel argument only justifies termination: every step consumes at least one
byte, so fuel equal to the byte count (supplied by `toStringLossyLoop`) is
never exhausted. -/
def toStringLossyAux : Nat → List Byte → List Char
  | 0, _ => []
  | _, [] => []
  | fuel + 1, b :: rest =>
    if b < 0x80 then Char.ofNat b :: toStringLossyAux fuel rest
    else if b < 0xC2 then repl :: toStringLossyAux fuel rest
    else if b < 0xE0 then
      match rest with
      | [] => [repl]
      | b1 :: rest1 =>
        if isCont b1 then
          Char.ofNat ((b % 0x20) * 0x40 + (b1 % 0x40)) :: toStringLossyAux fuel rest1
        else repl :: toStringLossyAux fuel rest
    else if b < 0xF0 then
      match rest with
      | [] => [repl]
      | b1 :: rest1 =>
        if (b == 0xE0 && 0xA0 ≤ b1 && b1 ≤ 0xBF) ||
           (0xE1 ≤ b && b ≤ 0xEC && isCont b1) ||
           (b == 0xED && 0x80 ≤ b1 && b1 ≤ 0x9F) ||
           (0xEE ≤ b && isCont b1) then
          match rest1 with
          | [] => [repl]
          | b2 :: rest2 =>
            if isCont b2 then
              Char.ofNat ((b % 0x10) * 0x1000 + (b1 % 0x40) * 0x40 + (b2 % 0x40)) ::
                toStringLossyAux fuel rest2
            else repl :: toStringLossyAux fuel rest1
        else repl :: toStringLossyAux fuel rest
    else if b < 0xF5 then
      match rest with
      | [] => [repl]
      | b1 :: rest1 =>
        if (b == 0xF0 && 0x90 ≤ b1 && b1 ≤ 0xBF) ||
           (0xF1 ≤ b && b ≤ 0xF3 && isCont b1) ||
           (b == 0xF4 && 0x80 ≤ b1 && b1 ≤ 0x8F) then
          match rest1 with
          | [] => [repl]
          | b2 :: rest2 =>
            if isCont b2 then
              match rest2 with
              | [] => [repl]
              | b3 :: rest3 =>
                if isCont b3 then
                  Char.ofNat ((b % 0x8) * 0x40000 + (b1 % 0x40) * 0x1000 +
                    (b2 % 0x40) * 0x40 + (b3 % 0x40)) :: toStringLossyAux fuel rest3
                else repl :: toStringLossyAux fuel rest2
            else repl :: toStringLossyAux fuel rest1
        else repl :: toStringLossyAux fuel rest
    else repl :: toStringLossyAux fuel rest

/-- Model of Rust's `OsStr::to_string_lossy` on a Unix byte path. -/
def to_string_lossy (s : List Byte) : String :=
  String.mk (toStringLossyAux s.length s)

/-- UTF-8 encoding of one character, as Rust encodes `&str` bytes. -/
def utf8EncodeChar (c : Char) : List Byte :=
  let n := c.toNat
  if n < 0x80 then [n]
  else if n < 0x800 then [0xC0 + n / 0x40, 0x80 + n % 0x40]
  else if n < 0x10000 then
    [0xE0 + n / 0x1000, 0x80 + (n / 0x40) % 0x40, 0x80 + n % 0x40]
  else
    [0xF0 + n / 0x40000, 0x80 + (n / 0x1000) % 0x40, 0x80 + (n / 0x40) % 0x40,
      0x80 + n % 0x40]

/-- The byte sequence of a Rust `&str` (its UTF-8 encoding), as seen by
`CString::new(symbol)`. -/
def strBytes (s : String) : List Byte :=
  s.data.foldr (fun c acc => utf8EncodeChar c ++ acc) []

/-- Outcome of a Rust computation that may `panic!` instead of returning. -/
inductive PanicOr (α : Type) where
  | ok : α → PanicOr α
  | panic : String → PanicOr α
deriving Repr, DecidableEq

/-- What the OS hands back for one wrapped POSIX primitive call: the raw
return value together with the sticky last-error buffer immediately
afterwards (`none` models `dlerror()` returning null, `some s` models it
returning a C string with bytes `s`). -/
structure PosixCallResult (T : Type) where
  ret : T
  lastError : Option (List Byte)

/-- Oracle for the POSIX platform loader (external collaborator `dl*`
family). Each field gives, per call, the returned value and the `dlerror`
state right after the call. -/
structure PosixWorld where
  dlopenRes : Option (List Byte) → Nat × Option (List Byte)
  dlsymRes : Nat → List Byte → Nat × Option (List Byte)
  dlcloseRes : Nat → Option (List Byte)

/-- One invocation of a native loader primitive, for call-trace bookkeeping. -/
inductive PrimCall where
  | dlopenC : Option (List Byte) → PrimCall
  | dlsymC : Nat → List Byte → PrimCall
  | dlcloseC : Nat → PrimCall
deriving Repr, DecidableEq

namespace dl

/-- `dl::check_for_errors_in` (POSIX backend, `src/lib.rs:226-244`): run the
operation, then query the sticky last-error pointer regardless of the
operation's own return value. A null pointer yields `Ok(result)`; a non-null
pointer is decoded as UTF-8 and yields `Err`, with a UTF-8 decoding failure
itself becoming an `Err` via the `?` on `map_err`. -/
def check_for_errors_in {T : Type} (call : PosixCallResult T) : Except String T :=
  match call.lastError with
  | none => .ok call.ret
  | some s =>
    match from_utf8 s with
    | .ok str => .error str
    | .error e => .error ("failed to check for errors: " ++ e)

/-- `dl::open_external` (`src/lib.rs:213-220`): `CString::new` on the path
bytes, which fails exactly when the path contains an embedded null byte; on
that failure the code `panic!`s with a descriptive message; otherwise it
calls `dlopen` with the lazy flag. Returns the raw handle and the `dlerror`
state after the call. -/
def open_external (w : PosixWorld) (filename : List Byte) :
    PanicOr (Nat × Option (List Byte)) :=
  if filename.contains 0 then
    .panic ("failed to open external `" ++ to_string_lossy filename ++ "`")
  else
    .ok (w.dlopenRes (some filename))

/-- `dl::open_internal` (`src/lib.rs:222-224`): `dlopen(null, LAZY)`. -/
def open_internal (w : PosixWorld) : Nat × Option (List Byte) :=
  w.dlopenRes none

/-- `dl::open` (`src/lib.rs:202-209`): dispatch on the optional filename and
wrap through `check_for_errors_in`. A panic inside the closure propagates. -/
def openLib (w : PosixWorld) (filename : Option (List Byte)) :
    PanicOr (Except String Nat) :=
  match filename with
  | some f =>
    match open_external w f with
    | .panic m => .panic m
    | .ok call => .ok (check_for_errors_in ⟨call.1, call.2⟩)
  | none =>
    .ok (check_for_errors_in ⟨(open_internal w).1, (open_internal w).2⟩)

/-- `dl::symbol` (`src/lib.rs:246-248`): raw `dlsym` call, returning the
address and the `dlerror` state after the call. -/
def symbolPrim (w : PosixWorld) (handle : Nat) (symbol : List Byte) :
    Nat × Option (List Byte) :=
  w.dlsymRes handle symbol

/-- `dl::close` (`src/lib.rs:249-253`): raw `dlclose` call (return value
discarded); only the `dlerror` state after the call is observable. -/
def closePrim (w : PosixWorld) (handle : Nat) : Option (List Byte) :=
  w.dlcloseRes handle

end dl

/-- `DynamicLibrary` (`src/lib.rs:22-24`): the owned wrapper around one
native handle. -/
structure DynamicLibrary where
  handle : Nat
deriving Repr, DecidableEq

namespace DynamicLibrary

/-- `DynamicLibrary::open` (`src/lib.rs:46-56`): delegate to `dl::open`; on
`Err` no `DynamicLibrary` is constructed, on `Ok(handle)` the returned value
wraps exactly that handle. -/
def openLib (w : PosixWorld) (filename : Option (List Byte)) :
    PanicOr (Except String DynamicLibrary) :=
  match dl.openLib w filename with
  | .panic m => .panic m
  | .ok maybe_library =>
    .ok (match maybe_library with
      | .error err => .error err
      | .ok handle => .ok ⟨handle⟩)

/-- `DynamicLibrary::symbol` (`src/lib.rs:111-129`): `CString::new(symbol)`
fails exactly when the UTF-8 bytes of the name contain a null byte, in which
case an `Err` is returned before any native call; otherwise `dl::symbol` is
run through `dl::check_for_errors_in`. The second component records the
native primitive calls actually made. -/
def symbol (w : PosixWorld) (lib : DynamicLibrary) (name : String) :
    Except String Nat × List PrimCall :=
  if (strBytes name).contains 0 then
    (.error ("failed to access `" ++ name ++ "`"), [])
  else
    let call := dl.symbolPrim w lib.handle (strBytes name)
    (dl.check_for_errors_in ⟨call.1, call.2⟩, [.dlsymC lib.handle (strBytes name)])

/-- `impl Drop for DynamicLibrary` (`src/lib.rs:26-33`): run `dl::close` on
the wrapped handle through `check_for_errors_in`; `Ok` is ignored, `Err`
escalates to `panic!`. The second component records the native close calls
made (Rust runs the destructor exactly once per owned value). -/
def dropLib (w : PosixWorld) (lib : DynamicLibrary) :
    PanicOr Unit × List PrimCall :=
  let res := dl.check_for_errors_in (⟨(), dl.closePrim w lib.handle⟩ : PosixCallResult Unit)
  (match res with
   | .ok () => .ok ()
   | .error s => .panic s,
   [.dlcloseC lib.handle])

end DynamicLibrary

namespace windl

/-- `dl::check_for_errors_in` (Windows backend, `src/lib.rs:355-371`):
`SetLastError(0)` clears the thread's last-error code before the operation
runs, then `GetLastError()` reads it afterwards. The wrapped operation is
modelled as a function from the incoming thread-error code (always 0 here,
because of the clear) to its result paired with the thread-error code it
leaves behind. Zero afterwards yields `Ok`; non-zero yields
`Err(format!("Error code {}", error))`. -/
def check_for_errors_in {T : Type} (f : Nat → T × Nat) : Except String T :=
  let r := f 0
  if r.2 = 0 then .ok r.1 else .error ("Error code " ++ toString r.2)

/-- `dl::win_error_string` (`src/lib.rs:398-423`): ask the OS
message-formatting facility (`FormatMessageW`, an external collaborator
modelled by the oracle `formatMessageRes`: `none` for a zero-length result,
`some msg` for the decoded buffer) for a description of `err`; fall back to
`"OS Error {err}"` when formatting fails, and trim whitespace from the
formatted message. -/
def win_error_string (formatMessageRes : Nat → Option String) (err : Nat) : String :=
  match formatMessageRes err with
  | none => "OS Error " ++ toString err
  | some msg => msg.trim

end windl

/-- The three configurations distinguished by the `cfg!` tests in
`src/lib.rs` (`windows`, `target_os = "macos"`, everything else). -/
inductive Platform where
  | windows
  | macos
  | otherUnix
deriving Repr, DecidableEq

/-- A process environment: a map from variable names to optional values, as
seen through `env::var_os` / `env::set_var`. -/
def Env : Type := String → Option String

/-- Model of `env::set_var(k, v)`. -/
def env_set_var (env : Env) (k v : String) : Env :=
  fun k2 => if k2 = k then some v else env k2

/-- Splitting a character list at every occurrence of `c` (the behavior of
Rust's `slice::split`, which underlies Unix `env::split_paths`); the empty
list yields one empty piece. -/
def splitOnChar (c : Char) : List Char → List (List Char)
  | [] => [[]]
  | x :: xs =>
    if x = c then [] :: splitOnChar c xs
    else
      match splitOnChar c xs with
      | [] => [[x]]
      | y :: ys => (x :: y) :: ys

/-- Windows `env::split_paths` component scanner: double quotes toggle an
in-quote flag and are stripped; a semicolon outside quotes ends the current
component. -/
def winSplitAux : List Char → Bool → List Char → List (List Char)
  | [], _, cur => [cur]
  | ch :: rest, inQuote, cur =>
    if ch = '"' then winSplitAux rest (!inQuote) cur
    else if ch = ';' && !inQuote then cur :: winSplitAux rest false []
    else winSplitAux rest inQuote (cur ++ [ch])

/-- Model of `env::split_paths` (standard-library collaborator): on Windows
split on unquoted `';'` stripping quotes, elsewhere split on `':'`. -/
def split_paths (p : Platform) (s : String) : List String :=
  match p with
  | .windows => (winSplitAux s.data false []).map fun l => String.mk l
  | _ => (splitOnChar ':' s.data).map fun l => String.mk l

namespace DynamicLibrary

/-- `DynamicLibrary::envvar` (`src/lib.rs:86-94`). -/
def envvar : Platform → String
  | .windows => "PATH"
  | .macos => "DYLD_LIBRARY_PATH"
  | .otherUnix => "LD_LIBRARY_PATH"

/-- `DynamicLibrary::separator` (`src/lib.rs:96-98`). -/
def separator : Platform → String
  | .windows => ";"
  | _ => ":"

/-- `DynamicLibrary::create_path` (`src/lib.rs:73-82`): the enumerate loop
that pushes the separator before every entry except the first. -/
def create_path (p : Platform) (path : List String) : String :=
  path.enum.foldl
    (fun newvar ip => (if ip.1 > 0 then newvar ++ separator p else newvar) ++ ip.2)
    ""

/-- `DynamicLibrary::search_path` (`src/lib.rs:102-107`): read the
platform's environment variable; unset yields the empty list, set yields
`env::split_paths` of the value. -/
def search_path (p : Platform) (env : Env) : List String :=
  match env (envvar p) with
  | some var => split_paths p var
  | none => []

/-- `DynamicLibrary::prepend_search_path` (`src/lib.rs:59-69`): read the
current list, insert the new path at index 0, rejoin with `create_path` and
write the result back to the environment variable. -/
def prepend_search_path (p : Platform) (env : Env) (path : String) : Env :=
  let sp := path :: search_path p env
  env_set_var env (envvar p) (create_path p sp)

end DynamicLibrary

/-- The spec's description of `joinPaths` (`joinPaths([]) = ""`,
`joinPaths([p]) = p`, `joinPaths([p1,p2]) = p1 <sep> p2`, one separator
between consecutive entries): stated as its own recursive function to be
compared with the source-derived `create_path`. -/
def joinPathsSpec (sep : String) : List String → String
  | [] => ""
  | [x] => x
  | x :: xs => x ++ sep ++ joinPathsSpec sep xs

/-- Discriminator: does a fallible open deliver its failure as an `Err`
value returned to the caller (as opposed to succeeding or panicking)? -/
def returnsErrToCaller {α : Type} : PanicOr (Except String α) → Bool
  | .ok (.error _) => true
  | _ => false

/-- A concrete loader oracle on which every primitive succeeds and leaves no
error behind; used to instantiate universally quantified theorems. -/
def w0 : PosixWorld :=
  ⟨fun _ => (0, none), fun _ _ => (0, none), fun _ => none⟩

/-- A concrete loader oracle on which resolving `"cos"` succeeds with
address 42 and every other name fails with error text `bad`, and closing
fails with error text `boom`; used to instantiate universally quantified
theorems. -/
def wMixed : PosixWorld :=
  ⟨fun _ => (1, none),
   fun _ n => if n = strBytes "cos" then (42, none) else (0, some (strBytes "bad")),
   fun _ => some (strBytes "boom")⟩

/-- C1: `DynamicLibrary::open` yields a library exactly when `dl::open`
yields a handle without error, the library wraps exactly that handle, on a
failed open no `DynamicLibrary` value is constructed (the error is passed
through unchanged), and a panic (embedded-null path) propagates unchanged. -/
theorem open_library_iff_platform_open_ok (w : PosixWorld) (filename : Option (List Byte)) :
    (∀ h : Nat, DynamicLibrary.openLib w filename = .ok (.ok ⟨h⟩) ↔
      dl.openLib w filename = .ok (.ok h)) ∧
    (∀ e : String, DynamicLibrary.openLib w filename = .ok (.error e) ↔
      dl.openLib w filename = .ok (.error e)) ∧
    (∀ m : String, DynamicLibrary.openLib w filename = .panic m ↔
      dl.openLib w filename = .panic m) := by
  unfold DynamicLibrary.openLib
  refine ⟨fun h => ?_, fun e => ?_, fun m => ?_⟩ <;>
    cases hres : dl.openLib w filename with
    | panic m2 => simp
    | ok r => cases r <;> simp

/-- Witness for C1 at the concrete self-open on the all-quiet oracle: the
platform open yields handle 0 without error, and the library wraps it. -/
theorem open_library_iff_platform_open_ok_witness :
    DynamicLibrary.openLib w0 none = .ok (.ok ⟨0⟩) :=
  ((open_library_iff_platform_open_ok w0 none).1 0).mpr rfl

/-- C2: the POSIX `check_for_errors_in` decides success purely from the
sticky last-error pointer, independent of the operation's own return value:
a null pointer yields `Ok` with the result, a non-null pointer yields `Err`
with the UTF-8 decoding of the C string, and a decoding failure yields an
`Err` describing that failure (never a crash). -/
theorem posix_check_for_errors_in_spec (T : Type) (ret ret2 : T) (err : Option (List Byte)) :
    (err = none → dl.check_for_errors_in ⟨ret, err⟩ = .ok ret) ∧
    (∀ s msg, err = some s → from_utf8 s = .ok msg →
      dl.check_for_errors_in ⟨ret, err⟩ = .error msg) ∧
    (∀ s e, err = some s → from_utf8 s = .error e →
      dl.check_for_errors_in ⟨ret, err⟩ = .error ("failed to check for errors: " ++ e)) ∧
    ((dl.check_for_errors_in ⟨ret, err⟩).isOk = (dl.check_for_errors_in ⟨ret2, err⟩).isOk) := by
  unfold dl.check_for_errors_in
  refine ⟨fun h => by simp [h], fun s msg hs hdec => by simp [hs, hdec],
    fun s e hs hdec => by simp [hs, hdec], ?_⟩
  cases err with
  | none => rfl
  | some s => cases hdec : from_utf8 s <;> simp [hdec]

/-- Witness for C2 at concrete inputs: a null error pointer, an error
pointer holding valid UTF-8 (`"fail"`), and an error pointer holding the
invalid byte `0xFF`. -/
theorem posix_check_for_errors_in_spec_witness :
    dl.check_for_errors_in (⟨7, none⟩ : PosixCallResult Nat) = .ok 7 ∧
    dl.check_for_errors_in (⟨7, some [102, 97, 105, 108]⟩ : PosixCallResult Nat) =
      .error "fail" ∧
    dl.check_for_errors_in (⟨7, some [0xFF]⟩ : PosixCallResult Nat) =
      .error "failed to check for errors: invalid utf-8 sequence of 1 bytes from index 0" :=
  ⟨(posix_check_for_errors_in_spec Nat 7 7 none).1 rfl,
   (posix_check_for_errors_in_spec Nat 7 7 (some [102, 97, 105, 108])).2.1
     [102, 97, 105, 108] "fail" rfl rfl,
   (posix_check_for_errors_in_spec Nat 7 7 (some [0xFF])).2.2.1 [0xFF]
     "invalid utf-8 sequence of 1 bytes from index 0" rfl rfl⟩

/-- C3 counterexample: on the Windows backend a non-zero last-error code 5
makes `check_for_errors_in` return `Err "Error code 5"`, not a message from
the OS message-formatting facility: `win_error_string` (which does use that
facility, with the `"OS Error {code}"` fallback) produces `"OS Error 5"`
for the same code when formatting fails, a different string. The formatting
facility is used by the Windows `open` path, not by `check_for_errors_in`. -/
theorem windows_check_message_counterexample :
    windl.check_for_errors_in (fun _ => ((), 5)) = .error "Error code 5" ∧
    windl.win_error_string (fun _ => none) 5 = "OS Error 5" ∧
    "Error code 5" ≠ "OS Error 5" :=
  ⟨rfl, rfl, by decide⟩

/-- C3 amended: the Windows `check_for_errors_in` clears the thread's
last-error code to zero before running the operation and reads it
afterwards; zero yields `Ok` with the operation's result, and a non-zero
code `n` yields `Err "Error code {n}"`. Separately, `win_error_string`
(used by the Windows open path) formats via the OS facility, falls back to
`"OS Error {code}"` when formatting fails, and trims whitespace. -/
theorem windows_check_for_errors_in_amended (T : Type) (f : Nat → T × Nat) :
    ((f 0).2 = 0 → windl.check_for_errors_in f = .ok (f 0).1) ∧
    ((f 0).2 ≠ 0 →
      windl.check_for_errors_in f = .error ("Error code " ++ toString (f 0).2)) ∧
    (∀ fm : Nat → Option String, ∀ err : Nat,
      (fm err = none → windl.win_error_string fm err = "OS Error " ++ toString err) ∧
      (∀ msg, fm err = some msg → windl.win_error_string fm err = msg.trim)) := by
  refine ⟨fun h => ?_, fun h => ?_, fun fm err => ⟨fun h => ?_, fun msg h => ?_⟩⟩ <;>
    simp [windl.check_for_errors_in, windl.win_error_string, h]

/-- Witness for C3's amended theorem at concrete operations: one leaving
the error code at zero, one setting it to 5, and both `win_error_string`
branches. -/
theorem windows_check_for_errors_in_amended_witness :
    windl.check_for_errors_in (fun _ => (3, 0)) = .ok 3 ∧
    windl.check_for_errors_in (fun _ => (9, 5)) = .error "Error code 5" ∧
    windl.win_error_string (fun _ => none) 7 = "OS Error 7" ∧
    windl.win_error_string (fun _ => some " denied \n") 7 = " denied \n".trim :=
  ⟨(windows_check_for_errors_in_amended Nat (fun _ => (3, 0))).1 rfl,
   (windows_check_for_errors_in_amended Nat (fun _ => (9, 5))).2.1 (by decide),
   ((windows_check_for_errors_in_amended Nat (fun _ => (3, 0))).2.2
     (fun _ => none) 7).1 rfl,
   ((windows_check_for_errors_in_amended Nat (fun _ => (3, 0))).2.2
     (fun _ => some " denied \n") 7).2 " denied \n" rfl⟩

/-- C4 counterexample: opening the path with bytes `a NUL b` on the POSIX
backend does not return an `Err` value to the caller; `open_external`
panics (the `let Ok(s) = CString::new(..) else panic!(..)` at
`src/lib.rs:215-217`), so the outcome is a process fault, not an error
result. -/
theorem open_embedded_null_counterexample :
    DynamicLibrary.openLib w0 (some [97, 0, 98]) =
      .panic "failed to open external `a\x00b`" ∧
    returnsErrToCaller (DynamicLibrary.openLib w0 (some [97, 0, 98])) = false :=
  ⟨rfl, rfl⟩

/-- C4 amended: for every path containing an embedded null byte, opening on
the POSIX backend panics with the descriptive message
`failed to open external {lossy path}` before the native open primitive is
reached; no `Err` is returned to the caller. -/
theorem open_embedded_null_panics (w : PosixWorld) (filename : List Byte)
    (h : 0 ∈ filename) :
    DynamicLibrary.openLib w (some filename) =
      .panic ("failed to open external `" ++ to_string_lossy filename ++ "`") := by
  simp [DynamicLibrary.openLib, dl.openLib, dl.open_external, h]

/-- Witness for C4's amended theorem at the concrete path `a NUL b`. -/
theorem open_embedded_null_panics_witness :
    0 ∈ ([97, 0, 98] : List Byte) ∧
    DynamicLibrary.openLib w0 (some [97, 0, 98]) =
      .panic ("failed to open external `" ++ to_string_lossy [97, 0, 98] ++ "`") :=
  ⟨by decide, open_embedded_null_panics w0 [97, 0, 98] (by decide)⟩

/-- C5 counterexample: at the embedded-null name `a NUL b`,
`DynamicLibrary::symbol` returns an `Err` to the caller (with no native
call made), while `DynamicLibrary::open` at the path with the same bytes
panics — so the symbol failure is *not* "the same way an open with an
embedded-null path fails". -/
theorem symbol_null_vs_open_counterexample :
    (DynamicLibrary.symbol w0 ⟨1⟩ "a\x00b").1 = .error "failed to access `a\x00b`" ∧
    (DynamicLibrary.symbol w0 ⟨1⟩ "a\x00b").2 = [] ∧
    DynamicLibrary.openLib w0 (some (strBytes "a\x00b")) =
      .panic "failed to open external `a\x00b`" ∧
    returnsErrToCaller (DynamicLibrary.openLib w0 (some (strBytes "a\x00b"))) = false :=
  ⟨rfl, rfl, rfl, rfl⟩

/-- C5 amended: for every symbol name containing an embedded null byte,
`DynamicLibrary::symbol` returns the descriptive failure
`failed to access {name}` and the platform resolve-symbol primitive is not
invoked (empty call trace) — though this is not the same failure mode as
`open` on an embedded-null path, which panics. -/
theorem symbol_embedded_null_fails (w : PosixWorld) (lib : DynamicLibrary) (name : String)
    (h : 0 ∈ strBytes name) :
    DynamicLibrary.symbol w lib name =
      (.error ("failed to access `" ++ name ++ "`"), []) := by
  simp [DynamicLibrary.symbol, h]

/-- Witness for C5's amended theorem at the concrete name `a NUL b`. -/
theorem symbol_embedded_null_fails_witness :
    0 ∈ strBytes "a\x00b" ∧
    DynamicLibrary.symbol w0 ⟨1⟩ "a\x00b" =
      (.error ("failed to access `" ++ "a\x00b" ++ "`"), []) :=
  ⟨by decide, symbol_embedded_null_fails w0 ⟨1⟩ "a\x00b" (by decide)⟩

/-- C6: destroying a `DynamicLibrary` invokes the platform close primitive
exactly once for its wrapped handle (the call trace is exactly one
`dlclose` on that handle), through `check_for_errors_in`; no reported error
yields a silent normal return, and a reported close error escalates to a
panic carrying the decoded message. -/
theorem drop_closes_once_and_escalates (w : PosixWorld) (lib : DynamicLibrary) :
    (DynamicLibrary.dropLib w lib).2 = [PrimCall.dlcloseC lib.handle] ∧
    (DynamicLibrary.dropLib w lib).2.count (PrimCall.dlcloseC lib.handle) = 1 ∧
    (dl.closePrim w lib.handle = none → (DynamicLibrary.dropLib w lib).1 = .ok ()) ∧
    (∀ s m, dl.closePrim w lib.handle = some s → from_utf8 s = .ok m →
      (DynamicLibrary.dropLib w lib).1 = .panic m) ∧
    (∀ s e, dl.closePrim w lib.handle = some s → from_utf8 s = .error e →
      (DynamicLibrary.dropLib w lib).1 = .panic ("failed to check for errors: " ++ e)) := by
  refine ⟨rfl, by simp [DynamicLibrary.dropLib, List.count_cons],
    fun h => by simp [DynamicLibrary.dropLib, dl.check_for_errors_in, h],
    fun s m hs hm => by simp [DynamicLibrary.dropLib, dl.check_for_errors_in, hs, hm],
    fun s e hs he => by simp [DynamicLibrary.dropLib, dl.check_for_errors_in, hs, he]⟩

/-- Witness for C6 on the oracle whose close reports the error `boom`: the
destructor panics with that message after exactly one close call. -/
theorem drop_closes_once_and_escalates_witness :
    (DynamicLibrary.dropLib wMixed ⟨7⟩).1 = .panic "boom" ∧
    (DynamicLibrary.dropLib wMixed ⟨7⟩).2 = [PrimCall.dlcloseC 7] :=
  ⟨(drop_closes_once_and_escalates wMixed ⟨7⟩).2.2.2.1 (strBytes "boom") "boom" rfl rfl,
   (drop_closes_once_and_escalates wMixed ⟨7⟩).1⟩

/-- C9: a failed lookup (the resolve primitive leaves a non-null error, or
the name has an embedded null) returns a descriptive-message failure, and
since `symbol` borrows the library immutably and is a pure function of the
unchanged `handle` field, the very same library value still succeeds on a
subsequent lookup whose resolve call reports no error. -/
theorem symbol_failure_keeps_handle_usable (w : PosixWorld) (lib : DynamicLibrary)
    (name : String) :
    (∀ s m, 0 ∉ strBytes name →
      (dl.symbolPrim w lib.handle (strBytes name)).2 = some s → from_utf8 s = .ok m →
      (DynamicLibrary.symbol w lib name).1 = .error m) ∧
    (0 ∈ strBytes name →
      (DynamicLibrary.symbol w lib name).1 = .error ("failed to access `" ++ name ++ "`")) ∧
    (∀ name2 a2, 0 ∉ strBytes name2 →
      dl.symbolPrim w lib.handle (strBytes name2) = (a2, none) →
      (DynamicLibrary.symbol w lib name2).1 = .ok a2) := by
  refine ⟨fun s m h hs hm => by
      simp [DynamicLibrary.symbol, dl.check_for_errors_in, h, hs, hm],
    fun h => by simp [DynamicLibrary.symbol, h],
    fun name2 a2 h hs => by
      simp [DynamicLibrary.symbol, dl.check_for_errors_in, h, hs]⟩

/-- Witness for C9 on the mixed oracle: looking up `nope` fails with the
decoded message `bad`, and the same library value `⟨7⟩` then succeeds in
resolving `cos` to address 42. -/
theorem symbol_failure_keeps_handle_usable_witness :
    (DynamicLibrary.symbol wMixed ⟨7⟩ "nope").1 = .error "bad" ∧
    (DynamicLibrary.symbol wMixed ⟨7⟩ "cos").1 = .ok 42 :=
  ⟨(symbol_failure_keeps_handle_usable wMixed ⟨7⟩ "nope").1 (strBytes "bad") "bad"
     (by decide) rfl rfl,
   (symbol_failure_keeps_handle_usable wMixed ⟨7⟩ "nope").2.2 "cos" 42 (by decide)
     rfl⟩

/-- The single character making up `separator`. -/
def sepChar : Platform → Char
  | .windows => ';'
  | _ => ':'

/-- The portion of the joined path string after the first entry. -/
def tailJoin (sep : String) : List String → String
  | [] => ""
  | x :: xs => sep ++ x ++ tailJoin sep xs

theorem foldl_enumFrom_join (sep : String) (xs : List String) (n : Nat) (acc : String) :
    (List.enumFrom (n + 1) xs).foldl
      (fun newvar ip => (if ip.1 > 0 then newvar ++ sep else newvar) ++ ip.2) acc
    = acc ++ tailJoin sep xs := by
  induction xs generalizing n acc with
  | nil => simp [tailJoin]
  | cons x xs ih =>
    simp only [List.enumFrom_cons, List.foldl_cons, tailJoin]
    rw [if_pos (Nat.succ_pos n), ih]
    simp [String.append_assoc]

theorem joinPathsSpec_cons_eq (sep : String) (x : String) (xs : List String) :
    joinPathsSpec sep (x :: xs) = x ++ tailJoin sep xs := by
  induction xs generalizing x with
  | nil => simp [joinPathsSpec, tailJoin]
  | cons y ys ih => simp [joinPathsSpec, tailJoin, ih, String.append_assoc]

theorem create_path_eq_joinPathsSpec (p : Platform) (l : List String) :
    DynamicLibrary.create_path p l = joinPathsSpec (DynamicLibrary.separator p) l := by
  cases l with
  | nil => rfl
  | cons x xs =>
    unfold DynamicLibrary.create_path
    rw [List.enum_cons, List.foldl_cons, joinPathsSpec_cons_eq]
    have h0 : ((if (0 : Nat) > 0 then "" ++ DynamicLibrary.separator p else "") ++ x) = x := by
      simp
    rw [h0, foldl_enumFrom_join]

theorem count_joinPathsSpec (c : Char) (sep : String) (hsep : sep.data = [c]) :
    ∀ l : List String,
      (joinPathsSpec sep l).data.count c =
        (l.map fun s => s.data.count c).sum + (l.length - 1)
  | [] => by simp [joinPathsSpec]
  | [x] => by simp [joinPathsSpec]
  | x :: y :: ys => by
    have ih := count_joinPathsSpec c sep hsep (y :: ys)
    simp only [joinPathsSpec, String.data_append, List.count_append, hsep, ih,
      List.map_cons, List.sum_cons, List.length_cons]
    simp [List.count_cons]
    omega

theorem splitOnChar_not_mem (c : Char) :
    ∀ x : List Char, c ∉ x → splitOnChar c x = [x]
  | [], _ => rfl
  | a :: as, h => by
    have ha : ¬a = c := fun hac => h (hac ▸ List.mem_cons_self a as)
    have has : c ∉ as := fun hm => h (List.mem_cons_of_mem a hm)
    simp [splitOnChar, ha, splitOnChar_not_mem c as has]

theorem splitOnChar_append (c : Char) :
    ∀ x rest : List Char, c ∉ x →
      splitOnChar c (x ++ c :: rest) = x :: splitOnChar c rest
  | [], rest, _ => by simp [splitOnChar]
  | a :: as, rest, h => by
    have ha : ¬a = c := fun hac => h (hac ▸ List.mem_cons_self a as)
    have has : c ∉ as := fun hm => h (List.mem_cons_of_mem a hm)
    have ih := splitOnChar_append c as rest has
    simp [splitOnChar, ha, ih]

theorem splitOnChar_join (c : Char) (sep : String) (hsep : sep.data = [c]) :
    ∀ (l : List String) (x : String), (∀ y ∈ x :: l, c ∉ y.data) →
      splitOnChar c (joinPathsSpec sep (x :: l)).data = (x :: l).map String.data
  | [], x, h => by
    simp only [joinPathsSpec, List.map_cons, List.map_nil]
    exact splitOnChar_not_mem c x.data (h x (List.mem_cons_self x []))
  | y :: ys, x, h => by
    have hx : c ∉ x.data := h x (List.mem_cons_self x (y :: ys))
    have hrest : ∀ z ∈ y :: ys, c ∉ z.data := fun z hz =>
      h z (List.mem_cons_of_mem x hz)
    have ih := splitOnChar_join c sep hsep ys y hrest
    show splitOnChar c (joinPathsSpec sep (x :: y :: ys)).data = _
    have hdata : (joinPathsSpec sep (x :: y :: ys)).data =
        x.data ++ c :: (joinPathsSpec sep (y :: ys)).data := by
      show ((x ++ sep) ++ joinPathsSpec sep (y :: ys)).data = _
      simp [String.data_append, hsep]
    rw [hdata, splitOnChar_append c x.data _ hx, ih]
    rfl

/-- `String.mk` undoes `String.data`. -/
theorem string_mk_data (s : String) : String.mk s.data = s := rfl

/-- A concrete environment in which every variable is set to `a:b`; used to
instantiate universally quantified theorems. -/
def envU : Env := fun _ => some "a:b"

/-- C7 counterexample: prepending the path `a:b` (which contains the POSIX
separator) to an empty search path and reading the path back yields
`["a", "b"]`, not the one-element list `["a:b"]` the claim requires: the
prepended entry is not the first element of the result. -/
theorem prepend_search_path_counterexample :
    DynamicLibrary.search_path .otherUnix
        (DynamicLibrary.prepend_search_path .otherUnix (fun _ => none) "a:b") =
      ["a", "b"] ∧
    DynamicLibrary.search_path .otherUnix (fun _ => none) = [] ∧
    (["a", "b"] : List String) ≠
      "a:b" :: DynamicLibrary.search_path .otherUnix (fun _ => none) :=
  ⟨by decide, rfl, by decide⟩

/-- C7 amended: on the POSIX configurations, provided neither the new path
nor any entry of the prior search-path list contains the separator
character `':'`, `prepend_search_path` followed by `search_path` yields the
new path followed by the prior list in original order (duplicates
preserved). (Unrestricted, the claim fails: entries containing the
separator are re-split on read-back.) -/
theorem prepend_search_path_amended (p : Platform) (env : Env) (path : String)
    (hp : p ≠ .windows)
    (hpath : ':' ∉ path.data)
    (hprior : ∀ x ∈ DynamicLibrary.search_path p env, ':' ∉ x.data) :
    DynamicLibrary.search_path p (DynamicLibrary.prepend_search_path p env path) =
      path :: DynamicLibrary.search_path p env := by
  have hall : ∀ y ∈ path :: DynamicLibrary.search_path p env, ':' ∉ y.data := by
    intro y hy
    rcases List.mem_cons.mp hy with h | h
    · exact h ▸ hpath
    · exact hprior y h
  have hsplit := splitOnChar_join ':' (DynamicLibrary.separator p) ?hsep
    (DynamicLibrary.search_path p env) path hall
  case hsep =>
    cases p with
    | windows => exact absurd rfl hp
    | macos => rfl
    | otherUnix => rfl
  have henv : DynamicLibrary.prepend_search_path p env path (DynamicLibrary.envvar p) =
      some (DynamicLibrary.create_path p (path :: DynamicLibrary.search_path p env)) := by
    unfold DynamicLibrary.prepend_search_path env_set_var
    simp
  unfold DynamicLibrary.search_path
  rw [henv]
  cases p with
  | windows => exact absurd rfl hp
  | macos =>
    show (splitOnChar ':' _).map _ = _
    rw [create_path_eq_joinPathsSpec, hsplit, List.map_map]
    have hid : ((fun l : List Char => String.mk l) ∘ String.data) = id :=
      funext fun s => rfl
    rw [hid, List.map_id]
    rfl
  | otherUnix =>
    show (splitOnChar ':' _).map _ = _
    rw [create_path_eq_joinPathsSpec, hsplit, List.map_map]
    have hid : ((fun l : List Char => String.mk l) ∘ String.data) = id :=
      funext fun s => rfl
    rw [hid, List.map_id]
    rfl

/-- Witness for C7's amended theorem: prepending `lib` to the prior list
`["a", "b"]` (from the variable value `a:b`) yields `["lib", "a", "b"]`. -/
theorem prepend_search_path_amended_witness :
    Platform.otherUnix ≠ Platform.windows ∧
    ':' ∉ ("lib" : String).data ∧
    (∀ x ∈ DynamicLibrary.search_path .otherUnix envU, ':' ∉ x.data) ∧
    DynamicLibrary.search_path .otherUnix
        (DynamicLibrary.prepend_search_path .otherUnix envU "lib") =
      "lib" :: DynamicLibrary.search_path .otherUnix envU :=
  ⟨by decide, by decide, by decide,
   prepend_search_path_amended .otherUnix envU "lib" (by decide) (by decide) (by decide)⟩

/-- C8: `create_path` is a pure function of its input list: it maps `[]` to
the empty string, `[p]` to exactly `p`, `[p1, p2]` to `p1 ++ sep ++ p2`
with the platform separator (`";"` on Windows, `":"` elsewhere), equals the
separator-intercalation of the entries in order in general, and the
occurrences of the separator character in the result are exactly the `n-1`
inserted between the `n` entries plus any occurrences inside the entries
themselves. -/
theorem create_path_spec (p : Platform) :
    DynamicLibrary.create_path p [] = "" ∧
    (∀ x, DynamicLibrary.create_path p [x] = x) ∧
    (∀ p1 p2, DynamicLibrary.create_path p [p1, p2] =
      p1 ++ DynamicLibrary.separator p ++ p2) ∧
    DynamicLibrary.separator .windows = ";" ∧
    DynamicLibrary.separator .macos = ":" ∧
    DynamicLibrary.separator .otherUnix = ":" ∧
    (∀ l, DynamicLibrary.create_path p l = joinPathsSpec (DynamicLibrary.separator p) l) ∧
    (∀ l, (DynamicLibrary.create_path p l).data.count (sepChar p) =
      (l.map fun s => s.data.count (sepChar p)).sum + (l.length - 1)) := by
  have hsep : (DynamicLibrary.separator p).data = [sepChar p] := by
    cases p <;> rfl
  refine ⟨rfl, fun x => ?_, fun p1 p2 => ?_, rfl, rfl, rfl, create_path_eq_joinPathsSpec p, fun l => ?_⟩
  · rw [create_path_eq_joinPathsSpec]; rfl
  · rw [create_path_eq_joinPathsSpec]; rfl
  · rw [create_path_eq_joinPathsSpec, count_joinPathsSpec (sepChar p) _ hsep]

/-- Witness for C8 at concrete two-element input on the POSIX
configuration. -/
theorem create_path_spec_witness :
    DynamicLibrary.create_path .otherUnix ["a", "b"] =
      "a" ++ DynamicLibrary.separator .otherUnix ++ "b" :=
  (create_path_spec .otherUnix).2.2.1 "a" "b"

/-- C10: `search_path` is total (its result type has no failure case): an
unset platform environment variable (`PATH` on Windows,
`DYLD_LIBRARY_PATH` on macOS, `LD_LIBRARY_PATH` elsewhere) yields the empty
list, and a set one yields the `env::split_paths` splitting of its value,
in order. -/
theorem search_path_total_spec (p : Platform) (env : Env) :
    (env (DynamicLibrary.envvar p) = none → DynamicLibrary.search_path p env = []) ∧
    (∀ v, env (DynamicLibrary.envvar p) = some v →
      DynamicLibrary.search_path p env = split_paths p v) ∧
    DynamicLibrary.envvar .windows = "PATH" ∧
    DynamicLibrary.envvar .macos = "DYLD_LIBRARY_PATH" ∧
    DynamicLibrary.envvar .otherUnix = "LD_LIBRARY_PATH" :=
  ⟨fun h => by simp [DynamicLibrary.search_path, h],
   fun v h => by simp [DynamicLibrary.search_path, h],
   rfl, rfl, rfl⟩

/-- Witness for C10 at concrete environments: one with the variable unset
(empty list, no failure), one with it set to `a:b` (the split value). -/
theorem search_path_total_spec_witness :
    DynamicLibrary.search_path .otherUnix (fun _ => none) = [] ∧
    DynamicLibrary.search_path .otherUnix envU = split_paths .otherUnix "a:b" :=
  ⟨(search_path_total_spec .otherUnix (fun _ => none)).1 rfl,
   (search_path_total_spec .otherUnix envU).2.1 "a:b" rfl⟩
